import Mathlib

/-!
Shallow embedding of the gorillagenics slip-scoring engine (`gpicks.py`) and the
bankroll ledger / Kelly sizer / parlay optimizer (`src/gorillagenics/bankroll.py`).

Python floats are modelled as elements of a linear ordered field (instantiated at
`ℚ` for the exact-arithmetic claims and at `ℝ` where the error function is
involved).  Python dicts become functions into `Option`, `dict.get(k, d)` becomes
`Option.getD`, and a method that can `raise` returns its would-be exception as an
`Option String` next to the post-state (the Python methods raise before any
mutation, so the post-state on the failure path is the unchanged input state).
-/

namespace Gorillagenics

section GPicks

variable {α : Type} [LinearOrderedField α]

/-- `Pick` dataclass from `gpicks.py` (input fields plus computed fields, the
latter defaulting to `0` / `""` exactly as in the dataclass). -/
structure Pick (α : Type) [LinearOrderedField α] where
  id : Int
  player : String
  team : String
  opponent : String
  stat_type : String
  line : α
  projection : α
  role_archetype : String
  script_hint : String
  ev_pct : α := 0
  win_prob : α := 0
  -- the `rec` field of the dataclass; renamed because `rec` is reserved in Lean
  rec_direction : String := ""
  sigma : α := 0
  role_tag : String := ""

instance : Inhabited (Pick α) :=
  ⟨{ id := 0, player := "", team := "", opponent := "", stat_type := "",
     line := 0, projection := 0, role_archetype := "", script_hint := "" }⟩

/-- The `SIGMA_RULES` dict of `gpicks.py`: `stat_type ↦ (percent_of_line, absolute_floor)`.
Decimal float literals are written as exact fractions. -/
def SIGMA_RULES (stat_type : String) : Option (α × α) :=
  if stat_type = "receiving_yards" then some (28/100, 9)
  else if stat_type = "receptions" then some (38/100, 12/10)
  else if stat_type = "rushing_yards" then some (30/100, 10)
  else if stat_type = "rush_rec_yards" then some (27/100, 12)
  else if stat_type = "passing_yards" then some (22/100, 18)
  else if stat_type = "passing_tds" then some (55/100, 6/10)
  else if stat_type = "rushing_tds" then some (70/100, 5/10)
  else if stat_type = "fantasy_points" then some (40/100, 4)
  else none

/-- The `ARCH_VOL` dict of `gpicks.py`: volatility multiplier by role archetype. -/
def ARCH_VOL (role_archetype : String) : Option α :=
  if role_archetype = "alpha_wr" then some (9/10)
  else if role_archetype = "slot_wr" then some 1
  else if role_archetype = "field_stretcher" then some (12/10)
  else if role_archetype = "rb1" then some (95/100)
  else if role_archetype = "rb2" then some (11/10)
  else if role_archetype = "pass_rb" then some (105/100)
  else if role_archetype = "te1" then some (105/100)
  else if role_archetype = "te2" then some (125/100)
  else if role_archetype = "qb" then some (9/10)
  else if role_archetype = "other" then some (11/10)
  else none

/-- The `CORR_PRIORS` dict of `gpicks.py`, keyed by `(stat_a, stat_b, script_name)`. -/
def CORR_PRIORS (key : String × String × String) : Option α :=
  if key = ("passing_yards", "receiving_yards", "shootout") then some (45/100)
  else if key = ("passing_yards", "receptions", "shootout") then some (40/100)
  else if key = ("passing_yards", "receiving_yards", "BUF_control") then some (30/100)
  else if key = ("rushing_yards", "passing_yards", "BUF_control") then some (-(10/100))
  else if key = ("rushing_yards", "receptions", "BUF_control") then some (5/100)
  else if key = ("rush_rec_yards", "passing_yards", "shootout") then some (25/100)
  else if key = ("rush_rec_yards", "receiving_yards", "shootout") then some (20/100)
  else if key = ("receptions", "receiving_yards", "neutral") then some (35/100)
  else if key = ("rushing_yards", "rush_rec_yards", "neutral") then some (30/100)
  else none

/-- `get_sigma` from `gpicks.py`: `SIGMA_RULES.get(stat_type, (0.30, 10.0))`,
`ARCH_VOL.get(role_archetype, 1.1)`, `base = max(line * pct, floor)`, `base * vol_mult`. -/
def get_sigma (stat_type : String) (line : α) (role_archetype : String) : α :=
  let pf := (SIGMA_RULES stat_type).getD (30/100, 10)
  let vol_mult := (ARCH_VOL role_archetype).getD (11/10)
  let base := max (line * pf.1) pf.2
  base * vol_mult

/-- `classify_role` from `gpicks.py`: "Anchor", else "Low-Variance", else "Correlation". -/
def classify_role (ev_pct win_prob : α) (stat_type role_archetype : String) : String :=
  if 12 ≤ ev_pct ∧ 62/100 ≤ win_prob then "Anchor"
  else if stat_type ∈ ["receptions", "rushing_yards", "receiving_yards"] ∧
          role_archetype ∈ ["te1", "rb1", "slot_wr"] ∧ 58/100 ≤ win_prob then "Low-Variance"
  else "Correlation"

/-- `pair_corr` from `gpicks.py`: `CORR_PRIORS.get(key, CORR_PRIORS.get(rev, 0.0))`. -/
def pair_corr (a b : Pick α) (script_name : String) : α :=
  (CORR_PRIORS (a.stat_type, b.stat_type, script_name)).getD
    ((CORR_PRIORS (b.stat_type, a.stat_type, script_name)).getD 0)

/-- Result record of `slip_quality` (the returned dict of `gpicks.py`). -/
structure SlipMetrics (α : Type) [LinearOrderedField α] where
  anchors : ℕ
  low_variance : ℕ
  correlation_picks : ℕ
  corr_sum : α
  avg_ev_pct : α
  avg_win_prob : α
  overall_score : α
  grade : String

/-- `slip_quality` from `gpicks.py`.  The `for i / for j in range(i+1, len)` double
loop is rendered as a double sum over `List.range` guarded by `i < j`. -/
def slip_quality (picks : List (Pick α)) (script_name : String) : SlipMetrics α :=
  let anchors := picks.countP (fun p => p.role_tag == "Anchor")
  let lows := picks.countP (fun p => p.role_tag == "Low-Variance")
  let cors := picks.countP (fun p => p.role_tag == "Correlation")
  let role_score := (if 1 ≤ anchors then 1 else 0) + (if 1 ≤ lows then 1 else 0) +
    (if 1 ≤ cors then 1 else 0)
  let corr_sum : α := ((List.range picks.length).map (fun i =>
    (((List.range picks.length).map (fun j =>
      if i < j then pair_corr (picks.getD i default) (picks.getD j default) script_name
      else 0))).sum)).sum
  let avg_ev := (picks.map Pick.ev_pct).sum / (picks.length : α)
  let avg_prob := (picks.map Pick.win_prob).sum / (picks.length : α)
  let overall := 4/10 * (avg_prob * 100) + 3/10 * (avg_ev + 100) + 3/10 * (corr_sum * 100 / 3)
  { anchors := anchors, low_variance := lows, correlation_picks := cors,
    corr_sum := corr_sum, avg_ev_pct := avg_ev, avg_win_prob := avg_prob,
    overall_score := overall,
    grade := if role_score = 3 ∧ 35/100 ≤ corr_sum ∧ 63/100 ≤ avg_prob then "A"
             else if 2 ≤ role_score ∧ 20/100 ≤ corr_sum ∧ 60/100 ≤ avg_prob then "B"
             else "C" }

end GPicks

/-- Python's `str.lower()` (ASCII case folding, which covers every string the
program compares against). -/
def pyLower (s : String) : String := ⟨s.data.map Char.toLower⟩

section RealModel

open MeasureTheory

/-- `math.erf`: the Gauss error function `erf x = 2/√π · ∫ t in 0..x, exp (-t²)`. -/
noncomputable def erf (x : ℝ) : ℝ := 2 / Real.sqrt Real.pi * ∫ t in (0:ℝ)..x, Real.exp (-(t^2))

/-- `normal_cdf` from `gpicks.py`: `0.5 * (1 + erf (x / √2))`. -/
noncomputable def normal_cdf (x : ℝ) : ℝ := 1/2 * (1 + erf (x / Real.sqrt 2))

/-- `compute_win_prob` from `gpicks.py`: `z = (line - proj)/sigma`; Over ↦ `1 - Φ(z)`,
anything whose lower-casing is not `"over"` ↦ `Φ(z)`. -/
noncomputable def compute_win_prob (line proj sigma : ℝ) (direction : String) : ℝ :=
  let z := (line - proj) / sigma
  if pyLower direction = "over" then 1 - normal_cdf z else normal_cdf z

/-- `score_pick` from `gpicks.py`: fills the computed fields of a `Pick`. -/
noncomputable def score_pick (p : Pick ℝ) : Pick ℝ :=
  let sigma := get_sigma p.stat_type p.line p.role_archetype
  let direction := if p.line ≤ p.projection then "Over" else "Under"
  let win_prob := compute_win_prob p.line p.projection sigma direction
  let gap := p.projection - p.line
  let denom := max |p.line| (1/1000000)
  let ev_pct := max (min (gap / denom * 100) 60) (-60)
  { p with sigma := sigma, rec_direction := direction, win_prob := win_prob,
           ev_pct := ev_pct,
           role_tag := classify_role ev_pct win_prob p.stat_type p.role_archetype }

end RealModel

section Bankroll

/-- `BankrollEntry` dataclass from `bankroll.py`.  The wall-clock `timestamp` field
is omitted: it carries no ledger semantics (entries are ordered by append sequence). -/
structure BankrollEntry where
  slip_id : String
  action : String
  amount : ℚ
  balance_before : ℚ
  balance_after : ℚ
  game_script : Option String := none
  stack_type : Option String := none
  notes : Option String := none
deriving DecidableEq

/-- The mutable state of a `BankrollManager` (ledger list plus current balance);
persistence (`save_ledger`/`load_ledger`) is I/O and out of the model. -/
structure BankrollState where
  ledger : List BankrollEntry := []
  current_balance : ℚ := 0
deriving DecidableEq

/-- `BankrollManager.initialize_bankroll`.  The Python method raises before any
mutation when the ledger is non-empty; a raise is modelled as `some message`
next to the (then unchanged) state. -/
def init_bankroll (starting_amount : ℚ) (s : BankrollState) : BankrollState × Option String :=
  if ¬ s.ledger.isEmpty then
    (s, some "Bankroll already initialized. Use update methods instead.")
  else
    let entry : BankrollEntry :=
      { slip_id := "INITIAL", action := "initialize", amount := starting_amount,
        balance_before := 0, balance_after := starting_amount,
        notes := some "Initial bankroll setup" }
    ({ ledger := s.ledger ++ [entry], current_balance := starting_amount }, none)

/-- The entry `initialize_bankroll` appends (named for reuse in proofs). -/
def initial_entry (a : ℚ) : BankrollEntry :=
  { slip_id := "INITIAL", action := "initialize", amount := a,
    balance_before := 0, balance_after := a, notes := some "Initial bankroll setup" }

/-- `BankrollManager.log_bet`: raises when `stake_amount > current_balance`,
otherwise appends an entry with `amount = -stake_amount` and debits the balance. -/
def log_bet (slip_id : String) (stake_amount : ℚ) (game_script stack_type notes : Option String)
    (s : BankrollState) : BankrollState × Option String :=
  if s.current_balance < stake_amount then
    (s, some "Insufficient bankroll")
  else
    let entry : BankrollEntry :=
      { slip_id := slip_id, action := "bet", amount := -stake_amount,
        balance_before := s.current_balance,
        balance_after := s.current_balance - stake_amount,
        game_script := game_script, stack_type := stack_type, notes := notes }
    ({ ledger := s.ledger ++ [entry], current_balance := s.current_balance - stake_amount }, none)

/-- `BankrollManager.log_result`: always appends an entry with `amount = payout`
and credits the balance. -/
def log_result (slip_id result : String) (payout : ℚ) (notes : Option String)
    (s : BankrollState) : BankrollState × Option String :=
  let entry : BankrollEntry :=
    { slip_id := slip_id, action := result, amount := payout,
      balance_before := s.current_balance,
      balance_after := s.current_balance + payout, notes := notes }
  ({ ledger := s.ledger ++ [entry], current_balance := s.current_balance + payout }, none)

/-- One call against the manager (the three ledger-mutating methods). -/
inductive BankrollOp where
  | init (starting_amount : ℚ)
  | bet (slip_id : String) (stake_amount : ℚ) (game_script stack_type notes : Option String)
  | result (slip_id res : String) (payout : ℚ) (notes : Option String)

/-- Apply one call to a state, returning the post-state and the raised message, if any. -/
def applyOp (s : BankrollState) : BankrollOp → BankrollState × Option String
  | .init a => init_bankroll a s
  | .bet slip stake gs st no => log_bet slip stake gs st no s
  | .result slip r payout no => log_result slip r payout no s

/-- Run a sequence of calls; `none` as soon as any call raises, so a `some`
result is exactly a sequence of successful operations. -/
def runOps (s : BankrollState) : List BankrollOp → Option BankrollState
  | [] => some s
  | op :: rest =>
    match applyOp s op with
    | (s', none) => runOps s' rest
    | (_, some _) => none

/-- Result record of `calculate_kelly_stake`; the two `Option` fields mirror the
keys absent from the early-return dict of the `bankroll ≤ 0` branch. -/
structure KellyResult where
  kelly_stake : ℚ
  recommended_stake : ℚ
  kelly_percentage : ℚ
  full_kelly_percentage : Option ℚ := none
  edge : Option ℚ := none
deriving DecidableEq

/-- `BankrollManager.calculate_kelly_stake` (with the bankroll passed explicitly;
the Python default merely substitutes `current_balance`). -/
def calculate_kelly_stake (win_probability decimal_odds bankroll kelly_fraction
    max_stake_percentage : ℚ) : KellyResult :=
  if bankroll ≤ 0 then
    { kelly_stake := 0, recommended_stake := 0, kelly_percentage := 0 }
  else
    let b := decimal_odds - 1
    let p := win_probability
    let q := 1 - win_probability
    let kelly_percentage := if b ≤ 0 ∨ p ≤ 0 then 0 else (b * p - q) / b
    let fractional_kelly := kelly_percentage * kelly_fraction
    let final_kelly_percentage := max 0 (min fractional_kelly max_stake_percentage)
    let kelly_stake := bankroll * final_kelly_percentage
    { kelly_stake := kelly_stake, recommended_stake := kelly_stake,
      kelly_percentage := final_kelly_percentage * 100,
      full_kelly_percentage := some (kelly_percentage * 100),
      edge := some (win_probability * decimal_odds - 1) }

/-- Result record of `ParLayOptimizer.optimize_parlay_size`; `optimal_ev = none`
models the initial `-inf` surviving an empty size range. -/
structure ParlayResult where
  optimal_size : ℕ
  optimal_ev : Option ℚ
  recommended_picks : List ℕ
  parlay_probability : ℚ
  parlay_odds : ℚ
deriving DecidableEq

/-- Stable insertion sort of `(probability, odds)` pairs by individual EV
`p*odds - 1`, descending — the same reordering Python's stable
`combined_data.sort(key=lambda x: x[0]*x[1]-1, reverse=True)` produces. -/
def insert_by_edge (x : ℚ × ℚ) : List (ℚ × ℚ) → List (ℚ × ℚ)
  | [] => [x]
  | y :: ys => if y.1 * y.2 - 1 ≤ x.1 * x.2 - 1 then x :: y :: ys else y :: insert_by_edge x ys

/-- See `insert_by_edge`. -/
def sort_by_edge_desc : List (ℚ × ℚ) → List (ℚ × ℚ)
  | [] => []
  | x :: xs => insert_by_edge x (sort_by_edge_desc xs)

/-- `ParLayOptimizer.optimize_parlay_size`.  `none` models the `ValueError` on a
length mismatch.  The `for size in range(1, min(max_legs+1, n+1))` loop is a fold
over `List.range' 1 (min max_legs n)`, carrying `(best_ev, best_size)` with
`none` as the initial `-inf` sentinel; `np.prod` of a selection is `List.prod`. -/
def optimize_parlay_size (pick_probabilities pick_odds : List ℚ) (max_legs : ℕ) :
    Option ParlayResult :=
  if pick_probabilities.length ≠ pick_odds.length then none
  else
    let n := pick_probabilities.length
    let best := (List.range' 1 (min max_legs n)).foldl
      (fun best size =>
        let combined_data := sort_by_edge_desc (pick_probabilities.zip pick_odds)
        let selected_probs := (combined_data.take size).map Prod.fst
        let selected_odds := (combined_data.take size).map Prod.snd
        let ev := selected_probs.prod * selected_odds.prod - 1
        match best with
        | none => some (ev, size)
        | some (best_ev, best_size) =>
          if best_ev < ev then some (ev, size) else some (best_ev, best_size))
      none
    match best with
    | none =>
      some { optimal_size := 0, optimal_ev := none, recommended_picks := [],
             parlay_probability := 1, parlay_odds := 1 }
    | some (best_ev, best_size) =>
      let best_combination := List.range best_size
      some { optimal_size := best_size, optimal_ev := some best_ev,
             recommended_picks := best_combination,
             parlay_probability := (best_combination.map (fun i => pick_probabilities.getD i 0)).prod,
             parlay_odds := (best_combination.map (fun i => pick_odds.getD i 0)).prod }

end Bankroll

section SpecSide

variable {α : Type} [LinearOrderedField α]

/-- Spec-side quantity: how many of the three role tags occur at least once among
the picks (`roleCoverage` in the spec). -/
def role_coverage (picks : List (Pick α)) : ℕ :=
  (if 1 ≤ picks.countP (fun p => p.role_tag == "Anchor") then 1 else 0) +
  (if 1 ≤ picks.countP (fun p => p.role_tag == "Low-Variance") then 1 else 0) +
  (if 1 ≤ picks.countP (fun p => p.role_tag == "Correlation") then 1 else 0)

/-- Spec-side quantity: the sum of the stat-pair prior over all unordered pairs of picks. -/
def pairwise_corr_sum (picks : List (Pick α)) (script_name : String) : α :=
  ((List.range picks.length).map (fun i =>
    (((List.range picks.length).map (fun j =>
      if i < j then pair_corr (picks.getD i default) (picks.getD j default) script_name
      else 0))).sum)).sum

/-- Spec-side quantity: arithmetic mean of the picks' win probabilities. -/
def avg_win_prob (picks : List (Pick α)) : α :=
  (picks.map Pick.win_prob).sum / (picks.length : α)

/-- Spec-side quantity: arithmetic mean of the picks' EV percentages. -/
def avg_ev_pct (picks : List (Pick α)) : α :=
  (picks.map Pick.ev_pct).sum / (picks.length : α)

/-- Ledger invariant of the spec, as one predicate on the manager state:
per-entry consistency, chaining of balances, balance = total of the amounts,
balance = `balance_after` of the last entry, and zero balance on an empty ledger. -/
def LedgerInv (s : BankrollState) : Prop :=
  (∀ e ∈ s.ledger, e.balance_after = e.balance_before + e.amount) ∧
  List.Chain' (fun a b => b.balance_before = a.balance_after) s.ledger ∧
  s.current_balance = (s.ledger.map BankrollEntry.amount).sum ∧
  (∀ e, s.ledger.getLast? = some e → e.balance_after = s.current_balance) ∧
  (s.ledger = [] → s.current_balance = 0)

end SpecSide

section WitnessInputs

/-- The spec's clamp example: `line = 100`, `projection = 1000`. -/
noncomputable def pickClampExample : Pick ℝ where
  id := 1
  player := "P"
  team := ""
  opponent := ""
  stat_type := "passing_yards"
  line := 100
  projection := 1000
  role_archetype := "qb"
  script_hint := "neutral"

/-- A scored pick used as witness input: an Anchor-tagged receptions pick. -/
def slipPickA : Pick ℚ where
  id := 1
  player := "A"
  team := ""
  opponent := ""
  stat_type := "receptions"
  line := 4
  projection := 5
  role_archetype := "te1"
  script_hint := "neutral"
  ev_pct := 20
  win_prob := 7/10
  role_tag := "Anchor"

/-- A scored pick used as witness input: a Correlation-tagged receiving-yards pick. -/
def slipPickB : Pick ℚ where
  id := 2
  player := "B"
  team := ""
  opponent := ""
  stat_type := "receiving_yards"
  line := 50
  projection := 55
  role_archetype := "alpha_wr"
  script_hint := "neutral"
  ev_pct := 10
  win_prob := 65/100
  role_tag := "Correlation"

/-- Witness operation sequence: initialize 1000, bet 50, win 95. -/
def opsW : List BankrollOp :=
  [.init 1000, .bet "s1" 50 none none none, .result "s1" "win" 95 none]

/-- The ledger entry `opsW` produces for the initialization. -/
def entryW1 : BankrollEntry :=
  { slip_id := "INITIAL", action := "initialize", amount := 1000,
    balance_before := 0, balance_after := 1000, notes := some "Initial bankroll setup" }

/-- The ledger entry `opsW` produces for the bet. -/
def entryW2 : BankrollEntry :=
  { slip_id := "s1", action := "bet", amount := -50,
    balance_before := 1000, balance_after := 950 }

/-- The ledger entry `opsW` produces for the win. -/
def entryW3 : BankrollEntry :=
  { slip_id := "s1", action := "win", amount := 95,
    balance_before := 950, balance_after := 1045 }

/-- The manager state after running `opsW` from scratch. -/
def stateW : BankrollState :=
  { ledger := [entryW1, entryW2, entryW3], current_balance := 1045 }

end WitnessInputs

section TheoremsGpicks

/-- The absolute floor in every `SIGMA_RULES` row (and in the fallback) is positive. -/
theorem sigmaRules_floor_pos (st : String) :
    0 < ((SIGMA_RULES st : Option (ℚ × ℚ)).getD (30/100, 10)).2 := by
  unfold SIGMA_RULES
  split_ifs <;> norm_num

/-- Every `ARCH_VOL` multiplier (and the fallback) is positive. -/
theorem archVol_pos (arch : String) :
    0 < ((ARCH_VOL arch : Option ℚ)).getD (11/10) := by
  unfold ARCH_VOL
  split_ifs <;> norm_num

/-- C6: the sigma estimator returns `max (line * pctOfLine) absoluteFloor * volMult`,
with table defaults `(0.30, 10.0)` and `1.1` for unknown stat types and roles, and
its value is strictly positive for every input, including non-positive lines. -/
theorem get_sigma_spec (st : String) (line : ℚ) (arch : String) :
    get_sigma st line arch =
      max (line * ((SIGMA_RULES st : Option (ℚ × ℚ)).getD (30/100, 10)).1)
        ((SIGMA_RULES st : Option (ℚ × ℚ)).getD (30/100, 10)).2 *
        ((ARCH_VOL arch : Option ℚ)).getD (11/10) ∧
    0 < get_sigma st line arch ∧
    (st ∉ ["receiving_yards", "receptions", "rushing_yards", "rush_rec_yards",
        "passing_yards", "passing_tds", "rushing_tds", "fantasy_points"] →
      (SIGMA_RULES st : Option (ℚ × ℚ)).getD (30/100, 10) = (30/100, 10)) ∧
    (arch ∉ ["alpha_wr", "slot_wr", "field_stretcher", "rb1", "rb2", "pass_rb",
        "te1", "te2", "qb", "other"] →
      ((ARCH_VOL arch : Option ℚ)).getD (11/10) = 11/10) := by
  refine ⟨rfl, ?_, ?_, ?_⟩
  · have h1 := sigmaRules_floor_pos st
    have h2 := archVol_pos arch
    have : (0:ℚ) < max (line * ((SIGMA_RULES st : Option (ℚ × ℚ)).getD (30/100, 10)).1)
        ((SIGMA_RULES st : Option (ℚ × ℚ)).getD (30/100, 10)).2 :=
      lt_of_lt_of_le h1 (le_max_right _ _)
    exact mul_pos this h2
  · intro h
    simp only [List.mem_cons, List.not_mem_nil, or_false, not_or] at h
    unfold SIGMA_RULES
    rw [if_neg h.1, if_neg h.2.1, if_neg h.2.2.1, if_neg h.2.2.2.1, if_neg h.2.2.2.2.1,
      if_neg h.2.2.2.2.2.1, if_neg h.2.2.2.2.2.2.1, if_neg h.2.2.2.2.2.2.2]
    rfl
  · intro h
    simp only [List.mem_cons, List.not_mem_nil, or_false, not_or] at h
    unfold ARCH_VOL
    rw [if_neg h.1, if_neg h.2.1, if_neg h.2.2.1, if_neg h.2.2.2.1, if_neg h.2.2.2.2.1,
      if_neg h.2.2.2.2.2.1, if_neg h.2.2.2.2.2.2.1, if_neg h.2.2.2.2.2.2.2.1,
      if_neg h.2.2.2.2.2.2.2.2.1, if_neg h.2.2.2.2.2.2.2.2.2]
    rfl

/-- Witness for `get_sigma_spec` at an unknown stat type, a negative line and an
unknown role archetype. -/
theorem get_sigma_spec_witness :
    0 < get_sigma "punt_yards" (-3 : ℚ) "kicker" ∧
    (SIGMA_RULES "punt_yards" : Option (ℚ × ℚ)).getD (30/100, 10) = (30/100, 10) ∧
    ((ARCH_VOL "kicker" : Option ℚ)).getD (11/10) = 11/10 :=
  ⟨(get_sigma_spec "punt_yards" (-3) "kicker").2.1,
   (get_sigma_spec "punt_yards" (-3) "kicker").2.2.1 (by decide),
   (get_sigma_spec "punt_yards" (-3) "kicker").2.2.2 (by decide)⟩

set_option maxHeartbeats 1000000 in
/-- No key of `CORR_PRIORS` is present in both orderings of its stat pair, so the
two lookups of `pair_corr` can never both succeed. -/
theorem corrPriors_not_both_some {x y s : String} {v w : ℚ}
    (h1 : CORR_PRIORS (x, y, s) = some v) (h2 : CORR_PRIORS (y, x, s) = some w) : False := by
  unfold CORR_PRIORS at h1
  split_ifs at h1 <;>
    first
    | exact Option.noConfusion h1
    | (rename_i hc
       simp only [Prod.mk.injEq] at hc
       obtain ⟨hx, hy, hs⟩ := hc
       subst hx
       subst hy
       subst hs
       simp [CORR_PRIORS] at h2)

/-- C7: the stat-pair prior lookup is symmetric in the two picks, and returns 0
when neither ordering of the pair is in the table. -/
theorem pair_corr_symm (a b : Pick ℚ) (s : String) :
    pair_corr a b s = pair_corr b a s ∧
    (CORR_PRIORS (a.stat_type, b.stat_type, s) = (none : Option ℚ) →
      CORR_PRIORS (b.stat_type, a.stat_type, s) = (none : Option ℚ) →
      pair_corr a b s = 0) := by
  constructor
  · unfold pair_corr
    rcases h1 : (CORR_PRIORS (a.stat_type, b.stat_type, s) : Option ℚ) with _ | v <;>
      rcases h2 : (CORR_PRIORS (b.stat_type, a.stat_type, s) : Option ℚ) with _ | w <;>
      simp [h1, h2]
    exact (corrPriors_not_both_some h1 h2).elim
  · intro h1 h2
    unfold pair_corr
    simp [h1, h2]

/-- Witness for `pair_corr_symm` at a pair of stat types absent from the prior table. -/
theorem pair_corr_symm_witness :
    pair_corr (default : Pick ℚ) (default : Pick ℚ) "any_script" = 0 :=
  (pair_corr_symm default default "any_script").2 (by decide) (by decide)

/-- C1: for a non-empty list of scored picks, `slip_quality` returns
`overallScore = 0.4*(avgWinProb*100) + 0.3*(avgEv+100) + 0.3*(corrSum*100/3)`
and grades "A"/"B"/"C" by the first-match threshold rule over role coverage,
correlation sum and average win probability. -/
theorem slip_quality_spec (picks : List (Pick ℚ)) (script : String) (hne : picks ≠ []) :
    (slip_quality picks script).overall_score =
      4/10 * (avg_win_prob picks * 100) + 3/10 * (avg_ev_pct picks + 100) +
      3/10 * (pairwise_corr_sum picks script * 100 / 3) ∧
    (slip_quality picks script).corr_sum = pairwise_corr_sum picks script ∧
    (slip_quality picks script).avg_win_prob = avg_win_prob picks ∧
    (slip_quality picks script).avg_ev_pct = avg_ev_pct picks ∧
    ((slip_quality picks script).grade = "A" ↔
      (role_coverage picks = 3 ∧ 35/100 ≤ pairwise_corr_sum picks script ∧
        63/100 ≤ avg_win_prob picks)) ∧
    ((slip_quality picks script).grade = "B" ↔
      (¬(role_coverage picks = 3 ∧ 35/100 ≤ pairwise_corr_sum picks script ∧
          63/100 ≤ avg_win_prob picks) ∧
        (2 ≤ role_coverage picks ∧ 20/100 ≤ pairwise_corr_sum picks script ∧
          60/100 ≤ avg_win_prob picks))) ∧
    ((slip_quality picks script).grade = "C" ↔
      (¬(role_coverage picks = 3 ∧ 35/100 ≤ pairwise_corr_sum picks script ∧
          63/100 ≤ avg_win_prob picks) ∧
        ¬(2 ≤ role_coverage picks ∧ 20/100 ≤ pairwise_corr_sum picks script ∧
          60/100 ≤ avg_win_prob picks))) := by
  have hgrade : (slip_quality picks script).grade =
      (if role_coverage picks = 3 ∧ 35/100 ≤ pairwise_corr_sum picks script ∧
          63/100 ≤ avg_win_prob picks then "A"
       else if 2 ≤ role_coverage picks ∧ 20/100 ≤ pairwise_corr_sum picks script ∧
          60/100 ≤ avg_win_prob picks then "B"
       else "C") := rfl
  refine ⟨rfl, rfl, rfl, rfl, ?_, ?_, ?_⟩ <;> rw [hgrade] <;>
    split_ifs with h1 h2 <;> simp_all

/-- Witness for `slip_quality_spec` on a concrete two-pick slip. -/
theorem slip_quality_spec_witness :
    (slip_quality [slipPickA, slipPickB] "neutral").overall_score =
      4/10 * (avg_win_prob [slipPickA, slipPickB] * 100) +
      3/10 * (avg_ev_pct [slipPickA, slipPickB] + 100) +
      3/10 * (pairwise_corr_sum [slipPickA, slipPickB] "neutral" * 100 / 3) :=
  (slip_quality_spec [slipPickA, slipPickB] "neutral" (List.cons_ne_nil _ _)).1

end TheoremsGpicks

section TheoremsReal

/-- C10: any direction whose lower-cased form is not `"over"` — not just `"Under"` —
takes the Under branch `Φ((line - projection)/sigma)`; no direction is rejected. -/
theorem compute_win_prob_default_under (line proj sigma : ℝ) (direction : String)
    (h : pyLower direction ≠ "over") :
    compute_win_prob line proj sigma direction = normal_cdf ((line - proj) / sigma) := by
  unfold compute_win_prob
  simp [h]

/-- Witness for `compute_win_prob_default_under` at an invalid direction string. -/
theorem compute_win_prob_default_under_witness :
    compute_win_prob 1 0 1 "sideways" = normal_cdf ((1 - 0) / 1) :=
  compute_win_prob_default_under 1 0 1 "sideways" (by decide)

/-- The Gaussian kernel `exp (-t²)` is continuous. -/
theorem continuous_gauss_kernel : Continuous fun t : ℝ => Real.exp (-(t^2)) := by
  continuity

/-- The error function is strictly monotone (its integrand is strictly positive). -/
theorem erf_strictMono : StrictMono erf := by
  intro a b hab
  have hint : ∀ u v : ℝ, IntervalIntegrable (fun t : ℝ => Real.exp (-(t^2)))
      MeasureTheory.volume u v := fun u v => continuous_gauss_kernel.intervalIntegrable u v
  have hadd := intervalIntegral.integral_add_adjacent_intervals (hint 0 a) (hint a b)
  have hpos : 0 < ∫ t in a..b, Real.exp (-(t^2)) :=
    intervalIntegral.intervalIntegral_pos_of_pos (hint a b) (fun x => Real.exp_pos _) hab
  have hc : 0 < 2 / Real.sqrt Real.pi :=
    div_pos two_pos (Real.sqrt_pos.mpr Real.pi_pos)
  have hlt : (∫ t in (0:ℝ)..a, Real.exp (-(t^2))) < ∫ t in (0:ℝ)..b, Real.exp (-(t^2)) := by
    linarith
  exact mul_lt_mul_of_pos_left hlt hc

/-- The modelled standard-normal CDF is strictly monotone. -/
theorem normal_cdf_strictMono : StrictMono normal_cdf := by
  intro a b hab
  unfold normal_cdf
  have h2 : (0:ℝ) < Real.sqrt 2 := Real.sqrt_pos.mpr two_pos
  have hdiv : a / Real.sqrt 2 < b / Real.sqrt 2 := by gcongr
  have := erf_strictMono hdiv
  linarith

/-- C5: for fixed projection and `sigma > 0`, the Over win probability is strictly
decreasing in the line and the Under win probability is strictly increasing. -/
theorem compute_win_prob_monotone (proj sigma : ℝ) (hs : 0 < sigma) :
    StrictAnti (fun line => compute_win_prob line proj sigma "Over") ∧
    StrictMono (fun line => compute_win_prob line proj sigma "Under") := by
  have hover : ∀ l, compute_win_prob l proj sigma "Over" = 1 - normal_cdf ((l - proj) / sigma) := by
    intro l
    unfold compute_win_prob
    rw [if_pos (by decide)]
  have hunder : ∀ l, compute_win_prob l proj sigma "Under" = normal_cdf ((l - proj) / sigma) := by
    intro l
    unfold compute_win_prob
    rw [if_neg (by decide)]
  have hz : ∀ x y : ℝ, x < y → (x - proj) / sigma < (y - proj) / sigma := by
    intro x y hxy
    gcongr
  constructor
  · intro x y hxy
    simp only [hover]
    have := normal_cdf_strictMono (hz x y hxy)
    linarith
  · intro x y hxy
    simp only [hunder]
    exact normal_cdf_strictMono (hz x y hxy)

/-- Witness for `compute_win_prob_monotone` at `projection = 0`, `sigma = 1`. -/
theorem compute_win_prob_monotone_witness :
    StrictAnti (fun line => compute_win_prob line 0 1 "Over") ∧
    StrictMono (fun line => compute_win_prob line 0 1 "Under") :=
  compute_win_prob_monotone 0 1 one_pos

/-- C4: scoring recommends "Over" exactly when `projection ≥ line`, computes
`evPercent` as the relative gap clamped to `[-60, 60]` (so the spec's example
`line = 100, projection = 1000` yields exactly 60), and assigns the role tag by
first-match order Anchor / Low-Variance / Correlation, the Anchor rule winning
ties over the Low-Variance conditions. -/
theorem score_pick_spec (p : Pick ℝ) :
    ((score_pick p).rec_direction = "Over" ↔ p.line ≤ p.projection) ∧
    ((score_pick p).rec_direction = "Under" ↔ ¬ p.line ≤ p.projection) ∧
    (score_pick p).ev_pct =
      max (min ((p.projection - p.line) / max |p.line| (1/1000000) * 100) 60) (-60) ∧
    (score_pick pickClampExample).ev_pct = 60 ∧
    ((score_pick p).role_tag = "Anchor" ↔
      12 ≤ (score_pick p).ev_pct ∧ 62/100 ≤ (score_pick p).win_prob) ∧
    ((score_pick p).role_tag = "Low-Variance" ↔
      ¬(12 ≤ (score_pick p).ev_pct ∧ 62/100 ≤ (score_pick p).win_prob) ∧
      (p.stat_type ∈ (["receptions", "rushing_yards", "receiving_yards"] : List String) ∧
        p.role_archetype ∈ (["te1", "rb1", "slot_wr"] : List String) ∧
        58/100 ≤ (score_pick p).win_prob)) ∧
    ((score_pick p).role_tag = "Correlation" ↔
      ¬(12 ≤ (score_pick p).ev_pct ∧ 62/100 ≤ (score_pick p).win_prob) ∧
      ¬(p.stat_type ∈ (["receptions", "rushing_yards", "receiving_yards"] : List String) ∧
        p.role_archetype ∈ (["te1", "rb1", "slot_wr"] : List String) ∧
        58/100 ≤ (score_pick p).win_prob)) := by
  have hrec : (score_pick p).rec_direction = if p.line ≤ p.projection then "Over" else "Under" :=
    rfl
  have htag : (score_pick p).role_tag =
      classify_role (score_pick p).ev_pct (score_pick p).win_prob p.stat_type
        p.role_archetype := rfl
  refine ⟨?_, ?_, rfl, ?_, ?_, ?_, ?_⟩
  · rw [hrec]
    split_ifs with h <;> simp [h]
  · rw [hrec]
    split_ifs with h <;> simp [h]
  · show max (min ((1000 - 100) / max |(100:ℝ)| (1/1000000) * 100) 60) (-60) = 60
    rw [abs_of_pos (by norm_num : (0:ℝ) < 100)]
    rw [max_eq_left (by norm_num : (1:ℝ)/1000000 ≤ 100)]
    norm_num
  · rw [htag]
    unfold classify_role
    split_ifs with h1 h2 <;> simp_all
  · rw [htag]
    unfold classify_role
    split_ifs with h1 h2 <;> simp_all
  · rw [htag]
    unfold classify_role
    split_ifs with h1 h2 <;> simp_all

end TheoremsReal

section TheoremsBankroll

/-- C3 counterexample: with `maxStakePct = -1/100` (and bankroll 100) the returned
stake is 0, which is **not** `≤ maxStakePct * bankroll = -1`; so the claim as
stated (for *every* `maxStakePct`) fails on the code. -/
theorem kelly_stake_negative_cap_counterexample :
    ¬ (calculate_kelly_stake (1/2) 2 100 (1/4) (-(1/100))).kelly_stake ≤ -(1/100) * 100 := by
  norm_num [calculate_kelly_stake, max_def, min_def]

/-- C3 (amended with `0 ≤ maxStakePct`): the Kelly sizer computes the full Kelly
fraction `(b*p - q)/b` (0 when `b ≤ 0` or `p ≤ 0`), multiplies by `kellyFraction`,
clamps to `[0, maxStakePct]`, yields a stake in `[0, maxStakePct * bankroll]`
with `edge = p*odds - 1` exactly, and returns all zeros when bankroll ≤ 0. -/
theorem kelly_stake_spec (p odds bank bank' kf msp : ℚ) :
    (0 < bank → 0 ≤ msp →
      (calculate_kelly_stake p odds bank kf msp).kelly_stake =
        bank * max 0 (min ((if odds - 1 ≤ 0 ∨ p ≤ 0 then 0
          else ((odds - 1) * p - (1 - p)) / (odds - 1)) * kf) msp) ∧
      (calculate_kelly_stake p odds bank kf msp).full_kelly_percentage =
        some ((if odds - 1 ≤ 0 ∨ p ≤ 0 then 0
          else ((odds - 1) * p - (1 - p)) / (odds - 1)) * 100) ∧
      (calculate_kelly_stake p odds bank kf msp).recommended_stake =
        (calculate_kelly_stake p odds bank kf msp).kelly_stake ∧
      0 ≤ (calculate_kelly_stake p odds bank kf msp).kelly_stake ∧
      (calculate_kelly_stake p odds bank kf msp).kelly_stake ≤ msp * bank ∧
      (calculate_kelly_stake p odds bank kf msp).edge = some (p * odds - 1)) ∧
    (bank' ≤ 0 → calculate_kelly_stake p odds bank' kf msp =
      { kelly_stake := 0, recommended_stake := 0, kelly_percentage := 0 }) := by
  constructor
  · intro hbank hmsp
    have hne : ¬ bank ≤ 0 := not_le.mpr hbank
    have hstake : (calculate_kelly_stake p odds bank kf msp).kelly_stake =
        bank * max 0 (min ((if odds - 1 ≤ 0 ∨ p ≤ 0 then 0
          else ((odds - 1) * p - (1 - p)) / (odds - 1)) * kf) msp) := by
      unfold calculate_kelly_stake
      rw [if_neg hne]
    refine ⟨hstake, ?_, ?_, ?_, ?_, ?_⟩
    · unfold calculate_kelly_stake
      rw [if_neg hne]
    · unfold calculate_kelly_stake
      rw [if_neg hne]
    · rw [hstake]
      exact mul_nonneg hbank.le (le_max_left _ _)
    · rw [hstake]
      have hcap : max 0 (min ((if odds - 1 ≤ 0 ∨ p ≤ 0 then 0
          else ((odds - 1) * p - (1 - p)) / (odds - 1)) * kf) msp) ≤ msp :=
        max_le hmsp (min_le_right _ _)
      calc bank * max 0 (min ((if odds - 1 ≤ 0 ∨ p ≤ 0 then 0
            else ((odds - 1) * p - (1 - p)) / (odds - 1)) * kf) msp)
          ≤ bank * msp := mul_le_mul_of_nonneg_left hcap hbank.le
        _ = msp * bank := mul_comm _ _
    · unfold calculate_kelly_stake
      rw [if_neg hne]
  · intro hbank
    unfold calculate_kelly_stake
    rw [if_pos hbank]

/-- Witness for `kelly_stake_spec`: a positive bankroll with a non-negative cap,
and a zero bankroll. -/
theorem kelly_stake_spec_witness :
    0 ≤ (calculate_kelly_stake (3/5) 2 1000 1 1).kelly_stake ∧
    (calculate_kelly_stake (3/5) 2 1000 1 1).kelly_stake ≤ 1 * 1000 ∧
    calculate_kelly_stake (3/5) 2 0 1 1 =
      { kelly_stake := 0, recommended_stake := 0, kelly_percentage := 0 } :=
  ⟨((kelly_stake_spec (3/5) 2 1000 0 1 1).1 (by decide) (by decide)).2.2.2.1,
   ((kelly_stake_spec (3/5) 2 1000 0 1 1).1 (by decide) (by decide)).2.2.2.2.1,
   (kelly_stake_spec (3/5) 2 1000 0 1 1).2 (by decide)⟩

/-- The fresh manager state satisfies the ledger invariant. -/
theorem ledgerInv_empty : LedgerInv {} := by
  refine ⟨?_, ?_, ?_, ?_, ?_⟩ <;> simp [LedgerInv, BankrollState.ledger, BankrollState.current_balance]

/-- Appending an entry whose `balance_before` is the current balance and whose
`balance_after` adds its amount preserves the ledger invariant. -/
theorem ledgerInv_append (s : BankrollState) (e : BankrollEntry) (hinv : LedgerInv s)
    (hbefore : e.balance_before = s.current_balance)
    (hafter : e.balance_after = e.balance_before + e.amount) :
    LedgerInv { ledger := s.ledger ++ [e], current_balance := s.current_balance + e.amount } := by
  obtain ⟨h1, h2, h3, h4, h5⟩ := hinv
  refine ⟨?_, ?_, ?_, ?_, ?_⟩
  · intro x hx
    rcases List.mem_append.mp hx with hx | hx
    · exact h1 x hx
    · simp only [List.mem_singleton] at hx
      subst hx
      exact hafter
  · rw [List.chain'_append]
    refine ⟨h2, List.chain'_singleton e, ?_⟩
    intro x hx y hy
    simp only [List.head?_cons, Option.mem_def, Option.some.injEq] at hy
    subst hy
    rw [hbefore]
    exact (h4 x (Option.mem_def.mp hx)).symm
  · simp only [List.map_append, List.sum_append, List.map_cons, List.map_nil, List.sum_cons,
      List.sum_nil, add_zero]
    rw [h3]
  · intro x hx
    rw [List.getLast?_append_cons] at hx
    have hx' : some e = some x := hx
    injection hx' with hx''
    subst hx''
    rw [hafter, hbefore]
  · intro habs
    exact absurd habs (by simp)

/-- A successful `applyOp` preserves the ledger invariant. -/
theorem applyOp_some_inv {s s' : BankrollState} {op : BankrollOp}
    (h : applyOp s op = (s', none)) (hinv : LedgerInv s) : LedgerInv s' := by
  cases op with
  | init a =>
    have hh : init_bankroll a s = (s', none) := h
    unfold init_bankroll at hh
    split_ifs at hh with hc
    · injection hh with h1 h2
      subst h1
      have hempty : s.ledger = [] := List.isEmpty_iff.mp hc
      have hbal : s.current_balance = 0 := hinv.2.2.2.2 hempty
      have h' := ledgerInv_append s
        { slip_id := "INITIAL", action := "initialize", amount := a,
          balance_before := 0, balance_after := a, notes := some "Initial bankroll setup" }
        hinv (by simp [hbal]) (by simp)
      simpa [hbal] using h'
    · simp at hh
  | bet slip stake gs st no =>
    have hh : log_bet slip stake gs st no s = (s', none) := h
    unfold log_bet at hh
    split_ifs at hh with hc
    · simp at hh
    · injection hh with h1 h2
      subst h1
      have h' := ledgerInv_append s
        { slip_id := slip, action := "bet", amount := -stake,
          balance_before := s.current_balance,
          balance_after := s.current_balance - stake,
          game_script := gs, stack_type := st, notes := no }
        hinv rfl (by simp [sub_eq_add_neg])
      simpa [sub_eq_add_neg] using h'
  | result slip r payout no =>
    have hh : log_result slip r payout no s = (s', none) := h
    unfold log_result at hh
    injection hh with h1 h2
    subst h1
    exact ledgerInv_append s
      { slip_id := slip, action := r, amount := payout,
        balance_before := s.current_balance,
        balance_after := s.current_balance + payout, notes := no }
      hinv rfl rfl

/-- A successful `applyOp` appends exactly one entry to the ledger. -/
theorem applyOp_some_ledger {s s' : BankrollState} {op : BankrollOp}
    (h : applyOp s op = (s', none)) : ∃ e, s'.ledger = s.ledger ++ [e] := by
  cases op with
  | init a =>
    have hh : init_bankroll a s = (s', none) := h
    unfold init_bankroll at hh
    split_ifs at hh with hc
    · injection hh with h1 h2
      subst h1
      exact ⟨_, rfl⟩
    · simp at hh
  | bet slip stake gs st no =>
    have hh : log_bet slip stake gs st no s = (s', none) := h
    unfold log_bet at hh
    split_ifs at hh with hc
    · simp at hh
    · injection hh with h1 h2
      subst h1
      exact ⟨_, rfl⟩
  | result slip r payout no =>
    have hh : log_result slip r payout no s = (s', none) := h
    unfold log_result at hh
    injection hh with h1 h2
    subst h1
    exact ⟨_, rfl⟩

/-- A successful run of operations preserves the ledger invariant. -/
theorem runOps_some_inv (ops : List BankrollOp) (s s' : BankrollState)
    (h : runOps s ops = some s') (hinv : LedgerInv s) : LedgerInv s' := by
  induction ops generalizing s with
  | nil =>
    simp only [runOps, Option.some.injEq] at h
    exact h ▸ hinv
  | cons op rest ih =>
    unfold runOps at h
    rcases hap : applyOp s op with ⟨s₁, err⟩
    rw [hap] at h
    cases err with
    | none => exact ih s₁ h (applyOp_some_inv hap hinv)
    | some msg => exact Option.noConfusion h

/-- A successful run only ever appends to the ledger. -/
theorem runOps_ledger_prefix (ops : List BankrollOp) (s s' : BankrollState)
    (h : runOps s ops = some s') : ∃ l, s'.ledger = s.ledger ++ l := by
  induction ops generalizing s with
  | nil =>
    simp only [runOps, Option.some.injEq] at h
    exact ⟨[], by simp [← h]⟩
  | cons op rest ih =>
    unfold runOps at h
    rcases hap : applyOp s op with ⟨s₁, err⟩
    rw [hap] at h
    cases err with
    | none =>
      obtain ⟨e, he⟩ := applyOp_some_ledger hap
      obtain ⟨l, hl⟩ := ih s₁ h
      exact ⟨e :: l, by rw [hl, he, List.append_assoc, List.singleton_append]⟩
    | some msg => exact Option.noConfusion h

/-- C2: after any successful sequence of initialize/logBet/logResult operations from
the empty ledger, every entry satisfies `balance_after = balance_before + amount`,
consecutive entries chain (`balance_before(n) = balance_after(n-1)`), the current
balance equals the last entry's `balance_after`, and that equals the first entry's
amount (the initial amount when the run starts with `initialize`) plus the sum of
all subsequent amounts. -/
theorem bankroll_ledger_invariants (ops : List BankrollOp) (s' : BankrollState)
    (h : runOps {} ops = some s') :
    (∀ e ∈ s'.ledger, e.balance_after = e.balance_before + e.amount) ∧
    List.Chain' (fun a b => b.balance_before = a.balance_after) s'.ledger ∧
    (∀ e, s'.ledger.getLast? = some e → s'.current_balance = e.balance_after) ∧
    (∀ h0 t, s'.ledger = h0 :: t →
      s'.current_balance = h0.amount + (t.map BankrollEntry.amount).sum) ∧
    (∀ a rest h0 t, ops = BankrollOp.init a :: rest → s'.ledger = h0 :: t →
      h0.amount = a) := by
  obtain ⟨h1, h2, h3, h4, h5⟩ := runOps_some_inv ops {} s' h ledgerInv_empty
  refine ⟨h1, h2, ?_, ?_, ?_⟩
  · intro e he
    exact (h4 e he).symm
  · intro h0 t ht
    rw [h3, ht]
    simp
  · intro a rest h0 t hops hledger
    subst hops
    unfold runOps at h
    rcases hap : applyOp {} (BankrollOp.init a) with ⟨s₁, err⟩
    rw [hap] at h
    cases err with
    | some msg => exact Option.noConfusion h
    | none =>
      have hstep : applyOp {} (BankrollOp.init a) =
          (BankrollState.mk [initial_entry a] a, none) := rfl
      rw [hstep] at hap
      injection hap with hap1 hap2
      obtain ⟨l, hl⟩ := runOps_ledger_prefix rest s₁ s' h
      rw [← hap1] at hl
      simp only [List.singleton_append] at hl
      rw [hledger] at hl
      injection hl with hl1 hl2
      rw [hl1]
      rfl

/-- Witness for `bankroll_ledger_invariants` on the concrete run `opsW`. -/
theorem bankroll_ledger_invariants_witness :
    stateW.current_balance = entryW3.balance_after :=
  (bankroll_ledger_invariants opsW stateW
      (by simp [opsW, runOps, applyOp, init_bankroll, log_bet, log_result, stateW,
            entryW1, entryW2, entryW3]
          norm_num)).2.2.1
    entryW3 (by simp [stateW, entryW3])

/-- C8: `initialize` fails exactly on a non-empty ledger and `logBet` fails exactly
when the stake exceeds the current balance; on failure the state is unchanged (no
entry appended), and on success exactly one entry is appended. -/
theorem bankroll_validation_spec (a : ℚ) (slip : String) (stake : ℚ)
    (gs st no : Option String) (s : BankrollState) :
    ((init_bankroll a s).2.isSome ↔ s.ledger ≠ []) ∧
    ((init_bankroll a s).2.isSome → (init_bankroll a s).1 = s) ∧
    ((init_bankroll a s).2 = none →
      ∃ e, (init_bankroll a s).1.ledger = s.ledger ++ [e] ∧
        (init_bankroll a s).1.current_balance = a) ∧
    ((log_bet slip stake gs st no s).2.isSome ↔ s.current_balance < stake) ∧
    ((log_bet slip stake gs st no s).2.isSome → (log_bet slip stake gs st no s).1 = s) ∧
    ((log_bet slip stake gs st no s).2 = none →
      ∃ e, (log_bet slip stake gs st no s).1.ledger = s.ledger ++ [e] ∧
        (log_bet slip stake gs st no s).1.current_balance = s.current_balance - stake) := by
  constructor
  · unfold init_bankroll
    split_ifs with hc <;> simp_all [List.isEmpty_iff]
  constructor
  · unfold init_bankroll
    split_ifs with hc
    · intro habs
      exact absurd habs (by simp)
    · intro _
      rfl
  constructor
  · unfold init_bankroll
    split_ifs with hc
    · intro _
      exact ⟨_, rfl, rfl⟩
    · intro habs
      simp at habs
  constructor
  · unfold log_bet
    split_ifs with hc <;> simp_all
  constructor
  · unfold log_bet
    split_ifs with hc
    · intro _
      rfl
    · intro habs
      exact absurd habs (by simp)
  · unfold log_bet
    split_ifs with hc
    · intro habs
      simp at habs
    · intro _
      exact ⟨_, rfl, rfl⟩

/-- Witness for `bankroll_validation_spec`: re-initialization on a non-empty ledger
fails, and an over-balance bet leaves the state unchanged. -/
theorem bankroll_validation_spec_witness :
    (init_bankroll 50 stateW).2.isSome ∧
    (log_bet "big" 2000 none none none stateW).1 = stateW :=
  ⟨(bankroll_validation_spec 50 "big" 2000 none none none stateW).1.mpr (by simp [stateW]),
   (bankroll_validation_spec 50 "big" 2000 none none none stateW).2.2.2.2.1 (by decide)⟩

/-- C9 (failing input for the claim): on probabilities `[0.5, 0.9]`, odds `[2, 2]`
and `maxLegs = 1` the EV-maximizing selection of size 1 is the second pick
(probability 0.9, edge 0.8), and the optimizer indeed reports
`optimal_ev = 0.8`; yet it returns `recommended_picks = [0]`,
`parlay_probability = 0.5` and `parlay_odds = 2` — the *first input* pick, whose
EV `0.5*2 - 1 = 0` is not the reported optimal EV `0.8`. -/
theorem optimize_parlay_size_wrong_selection :
    optimize_parlay_size [1/2, 9/10] [2, 2] 1 =
      some { optimal_size := 1, optimal_ev := some (4/5), recommended_picks := [0],
             parlay_probability := 1/2, parlay_odds := 2 } ∧
    ¬ ((1:ℚ)/2 * 2 - 1 = 4/5) := by
  constructor
  · simp [optimize_parlay_size, sort_by_edge_desc, insert_by_edge, List.range', List.range_succ]
    norm_num
  · norm_num

end TheoremsBankroll

end Gorillagenics
